import Mathlib

/-!
Shallow embedding of the test-simulation and scoring engine of the Benchmind
repository (`backend/services/test_framework.py` and
`backend/services/test_generator.py`), together with theorems settling the
frozen claims about it.

Modelling conventions:
* Python dicts keyed by `id` (built by `{x['id']: x for x in xs}`) are modelled
  by keeping the underlying insertion-ordered list and looking up the *last*
  record with a given id (later comprehension entries overwrite earlier ones).
* Python numbers (ints and floats) are modelled as exact rationals `ℚ`.
* `dict.get(k, default)` on optional fields is modelled with `Option` plus
  `getD`; fields the code always defaults uniformly are modelled as total.
* Wall-clock time (`time.time()` differences) is abstracted as an explicit
  parameter `t : ℚ` (milliseconds); it is opaque to every property proved here.
* A Python function that can raise is modelled with `Option`: `none` marks the
  raising execution (e.g. `ZeroDivisionError`).
* Python's substring test `needle in hay` is `pyIn needle hay`.
-/

/-- A tool record, as produced by the extraction step
(`tools` entries of the agent data). -/
structure Tool where
  id : String
  name : String
  description : String
  parameters : List String
deriving DecidableEq, Repr

/-- `model_config` of an agent; `temperature` defaults to `0.7` and
`max_tokens` to `1000` when absent (`model_config.get(...)` in the source). -/
structure ModelConfig where
  temperature : Option ℚ
  max_tokens : Option ℤ
deriving DecidableEq, Repr

/-- An agent record. `tools` is the list of declared tool-name strings.
String fields the source reads with `agent.get(k, '')` are modelled total,
with the empty string standing for an absent key. -/
structure Agent where
  id : String
  name : String
  tools : List String
  objective : String
  prompt : String
  system_instruction : String
  model_config : ModelConfig
deriving DecidableEq, Repr

/-- A relationship record: a directed edge between two agent ids. -/
structure Relationship where
  from_agent_id : String
  to_agent_id : String
  type : String
deriving DecidableEq, Repr

/-- The agent-system configuration consumed by `AgentTestFramework.__init__`. -/
structure AgentData where
  agents : List Agent
  tools : List Tool
  relationships : List Relationship
deriving DecidableEq, Repr

/-- `self.agents = {agent['id']: agent for agent in ...}` followed by
`self.agents[agent_id]`: the last agent with the given id wins. -/
def lookupAgent (ad : AgentData) (aid : String) : Option Agent :=
  (ad.agents.filter (fun a => a.id == aid)).getLast?

/-- `self.tools[tid]` under the same dict-comprehension convention. -/
def lookupTool (ad : AgentData) (tid : String) : Option Tool :=
  (ad.tools.filter (fun t => t.id == tid)).getLast?

/-- Key sequence of a Python dict built by insertion: first occurrences,
in order.  `seen` accumulates the keys already emitted. -/
def dedupKeys (seen : List String) : List String → List String
  | [] => []
  | k :: ks => if seen.contains k then dedupKeys seen ks else k :: dedupKeys (k :: seen) ks

/-- `self.tools.keys()` in iteration order. -/
def toolKeys (ad : AgentData) : List String :=
  dedupKeys [] (ad.tools.map (fun t => t.id))

/-- Contiguous-sublist test on character lists: `needle` occurs inside `hay`. -/
def sublistCheck (needle : List Char) : List Char → Bool
  | [] => needle.isEmpty
  | c :: t => needle.isPrefixOf (c :: t) || sublistCheck needle t

/-- Python's `needle in hay` on strings (substring containment). -/
def pyIn (needle hay : String) : Bool :=
  sublistCheck needle.data hay.data

/-- `available_tools` of `simulate_agent_execution`:
`[tid for tid in self.tools.keys() if any(tool_name in tid or`
` tool_name in self.tools[tid].get('name', '') for tool_name in agent_tools)]`. -/
def availableTools (ad : AgentData) (agentTools : List String) : List String :=
  (toolKeys ad).filter (fun tid =>
    agentTools.any (fun tool_name =>
      pyIn tool_name tid || pyIn tool_name (((lookupTool ad tid).map Tool.name).getD "")))

/-- One entry of a graph node's `calls` / `called_by` list:
`{'agent_id': ..., 'relationship': rel}`. -/
structure GraphEntry where
  agent_id : String
  relationship : Relationship
deriving DecidableEq, Repr

/-- A node of the execution graph: `{'calls': [], 'called_by': []}`. -/
structure GraphNode where
  calls : List GraphEntry
  called_by : List GraphEntry
deriving DecidableEq, Repr

def emptyNode : GraphNode := ⟨[], []⟩

/-- The graph dict is an insertion-ordered association list with unique keys;
`graph[k]` / `k in graph` is lookup of the first (only) entry with key `k`. -/
def graphFind (g : List (String × GraphNode)) (k : String) : Option GraphNode :=
  (g.find? (fun p => p.1 == k)).map (fun p => p.2)

/-- `if k not in graph: graph[k] = {'calls': [], 'called_by': []}`. -/
def insertIfAbsent (g : List (String × GraphNode)) (k : String) :
    List (String × GraphNode) :=
  if (graphFind g k).isSome then g else g ++ [(k, emptyNode)]

/-- In-place update of the node stored at key `k`. -/
def modifyNode (g : List (String × GraphNode)) (k : String)
    (f : GraphNode → GraphNode) : List (String × GraphNode) :=
  g.map (fun p => if p.1 == k then (p.1, f p.2) else p)

/-- Body of the `for rel in self.relationships` loop of
`_build_execution_graph`. -/
def buildStep (g : List (String × GraphNode)) (rel : Relationship) :
    List (String × GraphNode) :=
  let g1 := insertIfAbsent g rel.from_agent_id
  let g2 := insertIfAbsent g1 rel.to_agent_id
  let g3 := modifyNode g2 rel.from_agent_id
    (fun n => { n with calls := n.calls ++ [⟨rel.to_agent_id, rel⟩] })
  modifyNode g3 rel.to_agent_id
    (fun n => { n with called_by := n.called_by ++ [⟨rel.from_agent_id, rel⟩] })

/-- `AgentTestFramework._build_execution_graph`. -/
def build_execution_graph (rels : List Relationship) : List (String × GraphNode) :=
  rels.foldl buildStep []

/-- One step of the simulated trace.  The human-readable `message` strings and
per-step extras (`tools`, `collaborators`, `tool_name`) of the source are
carried nowhere by any claim and are omitted. -/
structure SimStep where
  step : String
  status : String
deriving DecidableEq, Repr

/-- `simulation['metrics']` of `simulate_agent_execution`. -/
structure SimMetrics where
  response_time : ℚ
  tool_accuracy : ℚ
  config_validity : ℚ
  collaboration_score : ℚ
deriving DecidableEq, Repr

/-- The success-shaped return value of `simulate_agent_execution`. -/
structure Simulation where
  agent_id : String
  agent_name : String
  input : String
  success : Bool
  execution_time : ℚ
  steps : List SimStep
  metrics : SimMetrics
deriving DecidableEq, Repr

/-- `simulate_agent_execution` returns either
`{'error': ..., 'success': False}` or a full simulation dict. -/
inductive SimResult where
  | err (error : String) (success : Bool)
  | ok (sim : Simulation)
deriving DecidableEq, Repr

/-- `config_valid = 0 <= temp <= 2 and max_tokens > 0` with the source's
defaults `temperature=0.7`, `max_tokens=1000`. -/
def configValid (mc : ModelConfig) : Bool :=
  let temp := mc.temperature.getD (7 / 10)
  let max_tokens := mc.max_tokens.getD 1000
  decide (0 ≤ temp) && decide (temp ≤ 2) && decide (0 < max_tokens)

/-- `AgentTestFramework.simulate_agent_execution`.  `t` abstracts the
wall-clock milliseconds the call consumes. -/
def simulate_agent_execution (ad : AgentData) (aid : String) (input : String)
    (t : ℚ) : SimResult :=
  match lookupAgent ad aid with
  | none => .err "Agent not found" false
  | some agent =>
    let agent_tools := agent.tools
    let available_tools := availableTools ad agent_tools
    let valid := configValid agent.model_config
    let graph := build_execution_graph ad.relationships
    let steps : List SimStep :=
      [⟨"initialization", "passed"⟩,
       ⟨"tool_validation", if 0 < available_tools.length then "passed" else "warning"⟩,
       ⟨"config_validation", if valid then "passed" else "failed"⟩]
      ++ (available_tools.take 2).map (fun _ => (⟨"tool_execution", "passed"⟩ : SimStep))
      ++ (match graphFind graph aid with
          | some n => if n.calls.isEmpty then [] else [⟨"agent_collaboration", "passed"⟩]
          | none => [])
    .ok {
      agent_id := aid
      agent_name := agent.name
      input := input
      success := true
      execution_time := t
      steps := steps
      metrics := {
        response_time := t
        tool_accuracy := (available_tools.length : ℚ) / (max agent_tools.length 1 : ℚ) * 100
        config_validity := if valid then 100 else 50
        collaboration_score :=
          ((((graphFind graph aid).map (fun n => n.calls.length)).getD 0 : ℕ) : ℚ) * 20 } }

/-- The `results` dict of `run_stress_test`.  The source never writes an
`error` key into this dict; the `error` field records exactly that optional
key, so that its absence (`none`) is statable. -/
structure StressResult where
  agent_id : String
  iterations : ℕ
  response_times : List ℚ
  success_rate : ℚ
  average_time : ℚ
  error : Option String
deriving DecidableEq, Repr

/-- `sim_result.get('success')` as a boolean. -/
def simSuccess : SimResult → Bool
  | .err _ s => s
  | .ok sim => sim.success

/-- `sim_result['execution_time']`; only read on successful simulations
(the error dict has no such key — the `0` branch is unreachable there). -/
def simExecTime : SimResult → ℚ
  | .err _ _ => 0
  | .ok sim => sim.execution_time

/-- `AgentTestFramework.run_stress_test`.  `t i` abstracts the wall-clock
milliseconds of iteration `i`.  `none` models the `ZeroDivisionError` raised
by `(successes / num_iterations) * 100` when `num_iterations == 0`. -/
def run_stress_test (ad : AgentData) (aid : String) (num_iterations : ℕ)
    (t : ℕ → ℚ) : Option StressResult :=
  let sims := (List.range num_iterations).map (fun i =>
    let j := i + 1
    simulate_agent_execution ad aid s!"Stress test input #{j}" (t i))
  let successes := (sims.filter simSuccess).length
  let response_times := (sims.filter simSuccess).map simExecTime
  if num_iterations = 0 then none
  else some {
    agent_id := aid
    iterations := num_iterations
    response_times := response_times
    success_rate := (successes : ℚ) / (num_iterations : ℚ) * 100
    average_time :=
      if response_times.isEmpty then 0
      else response_times.sum / (response_times.length : ℚ)
    error := none }

/-- The success-shaped return value of `test_tool_calling`. -/
structure ToolCallOk where
  agent_id : String
  tool_name : String
  has_tool : Bool
  tool_exists : Bool
  passed : Bool
  tool_description : Option String
  tool_parameters : Option (List String)
deriving DecidableEq, Repr

/-- `test_tool_calling` returns either `{'error': ..., 'passed': False}` or a
full result dict. -/
inductive ToolCallResult where
  | err (error : String) (passed : Bool)
  | ok (r : ToolCallOk)
deriving DecidableEq, Repr

/-- `AgentTestFramework.test_tool_calling`. -/
def test_tool_calling (ad : AgentData) (aid : String) (tool_name : String) :
    ToolCallResult :=
  match lookupAgent ad aid with
  | none => .err "Agent not found" false
  | some agent =>
    let agent_tools := agent.tools
    let has_tool := agent_tools.contains tool_name
      || agent_tools.any (fun tool => pyIn tool_name tool)
    let tool_def := ((toolKeys ad).find? (fun tid =>
        pyIn tool_name (((lookupTool ad tid).map Tool.name).getD "")
          || pyIn tool_name tid)).bind (lookupTool ad)
    .ok {
      agent_id := aid
      tool_name := tool_name
      has_tool := has_tool
      tool_exists := tool_def.isSome
      passed := has_tool && tool_def.isSome
      tool_description := tool_def.map (fun td => td.description)
      tool_parameters := tool_def.map (fun td => td.parameters) }

/-- The success-shaped return value of `test_reasoning`. -/
structure ReasonOk where
  agent_id : String
  scenario : String
  reasoning_score : ℕ
  has_clear_objective : Bool
  has_detailed_prompt : Bool
  has_system_instruction : Bool
  passed : Bool
deriving DecidableEq, Repr

/-- `test_reasoning` returns either `{'error': ..., 'passed': False}` or a
full result dict. -/
inductive ReasonResult where
  | err (error : String) (passed : Bool)
  | ok (r : ReasonOk)
deriving DecidableEq, Repr

/-- `AgentTestFramework.test_reasoning`. -/
def test_reasoning (ad : AgentData) (aid : String) (scenario : String) :
    ReasonResult :=
  match lookupAgent ad aid with
  | none => .err "Agent not found" false
  | some agent =>
    let has_clear_objective := decide (10 < agent.objective.length)
    let has_detailed_prompt := decide (50 < agent.prompt.length)
    let has_system_instruction := decide (20 < agent.system_instruction.length)
    let reasoning_score :=
      (if has_clear_objective then 30 else 0)
      + (if has_detailed_prompt then 40 else 0)
      + (if has_system_instruction then 30 else 0)
    .ok {
      agent_id := aid
      scenario := scenario
      reasoning_score := reasoning_score
      has_clear_objective := has_clear_objective
      has_detailed_prompt := has_detailed_prompt
      has_system_instruction := has_system_instruction
      passed := decide (70 ≤ reasoning_score) }

/-- A declared metric of a test case:
`{name, unit, benchmark, description}` with optional fields read through
`metric.get(k, default)`. -/
structure MetricSpec where
  name : String
  unit : Option String
  benchmark : Option ℚ
  description : Option String
deriving DecidableEq, Repr

/-- The slice of a generated test case that `run_test` reads on the paths
modelled here. -/
structure TestCase where
  id : String
  metrics : List MetricSpec
deriving DecidableEq, Repr

/-- A remediation recommendation; only `severity` is inspected by the
aggregator, the remaining copy is opaque payload. -/
structure Recommendation where
  severity : String
  issue : String
deriving DecidableEq, Repr

/-- A measured metric of a test result:
`{name, value, unit, benchmark, passed, description}`. -/
structure ResultMetric where
  name : String
  value : ℚ
  unit : String
  benchmark : ℚ
  passed : Bool
  description : String
deriving DecidableEq, Repr

/-- A test result record as consumed by `generate_test_report`.
`test_name` is optional (`r.get('test_name', 'Unknown Test')`);
`highlight_elements` is read with default `[]`, so a missing key and an
empty list coincide.  `summary` carries `results['summary']`. -/
structure TestResult where
  test_id : String
  status : String
  execution_time : ℚ
  summary : String
  metrics : List ResultMetric
  recommendations : List Recommendation
  test_name : Option String
  highlight_elements : List String
deriving DecidableEq, Repr

/-- One metric of the generic-fallback branch of `TestGenerator.run_test`:
`value = 85 + (hash(metric.get('name', '')) % 15)`,
`passed = value >= metric.get('benchmark', 80)`.  Python's string `hash` is a
fixed function of the string for the lifetime of the interpreter; it is
abstracted as the parameter `h`. -/
def fallbackMetric (h : String → ℤ) (m : MetricSpec) : ResultMetric :=
  let value : ℚ := 85 + ((h m.name % 15 : ℤ) : ℚ)
  { name := m.name
    value := value
    unit := m.unit.getD "%"
    benchmark := m.benchmark.getD 80
    passed := decide (m.benchmark.getD 80 ≤ value)
    description := m.description.getD "" }

/-- The metric list built by the generic-fallback dispatch path of
`run_test` for a test case. -/
def genericFallbackMetrics (h : String → ℤ) (tc : TestCase) : List ResultMetric :=
  tc.metrics.map (fallbackMetric h)

/-- The fallback result built by the `except Exception` handler of
`run_test`: `status='error'`, `execution_time=100`, empty metrics and
recommendations. -/
def errorResult (tc : TestCase) (e : String) : TestResult :=
  { test_id := tc.id
    status := "error"
    execution_time := 100
    summary := s!"Test execution error: {e}"
    metrics := []
    recommendations := []
    test_name := none
    highlight_elements := [] }

/-- The `try/except` boundary of `TestGenerator.run_test`: the category
dispatch either produces a result or raises (`Except.error` carries the
exception message `str(e)`); the handler converts the latter into
`errorResult`.  The function is total: no exception escapes. -/
def run_test (tc : TestCase) (dispatch : Except String TestResult) : TestResult :=
  match dispatch with
  | .ok r => r
  | .error e => errorResult tc e

/-- Python's `round(x, 2)` on exact values: round half to even at the second
decimal place. -/
def pyRound2 (x : ℚ) : ℚ :=
  let y := x * 100
  let f : ℤ := Int.floor y
  let r := y - (f : ℚ)
  let n : ℤ :=
    if r < 1 / 2 then f
    else if 1 / 2 < r then f + 1
    else if f % 2 = 0 then f else f + 1
  (n : ℚ) / 100

/-- All metrics of all results, in traversal order of the aggregation loop. -/
def allMetrics (results : List TestResult) : List ResultMetric :=
  (results.map (fun r => r.metrics)).flatten

/-- Key order of the `category_scores` dict: metric names by first
appearance.  (The loop appends `metric.get('value', 0)` under the key
`metric.get('name', 'unknown')`.) -/
def metricNames (results : List TestResult) : List String :=
  dedupKeys [] ((allMetrics results).map (fun m => m.name))

/-- The value bucket of the `category_scores` dict for one metric name:
the `value` fields of all metrics with that name, in traversal order. -/
def categoryScores (results : List TestResult) (name : String) : List ℚ :=
  ((allMetrics results).filter (fun m => m.name == name)).map (fun m => m.value)

/-- `sum(scores) / len(scores) if scores else 0`. -/
def pyAvg (scores : List ℚ) : ℚ :=
  if scores.isEmpty then 0 else scores.sum / (scores.length : ℚ)

/-- `report['summary']`. -/
structure ReportSummary where
  total_tests : ℕ
  passed : ℕ
  failed : ℕ
  warnings : ℕ
  errors : ℕ
  success_rate : ℚ
deriving DecidableEq, Repr

/-- One entry of `report['category_performance']`. -/
structure CategoryPerf where
  category : String
  average_score : ℚ
  benchmark : ℚ
  passed : Bool
deriving DecidableEq, Repr

/-- One entry of `report['agent_performance']`. -/
structure AgentPerf where
  name : String
  tests_run : ℕ
  passed : ℕ
  failed : ℕ
  average_score : ℚ
  metrics : List ResultMetric
deriving DecidableEq, Repr

/-- A flattened recommendation `{**rec, 'test_id': ..., 'test_name': ...}`. -/
structure RecWithTest where
  recommendation : Recommendation
  test_id : String
  test_name : String
deriving DecidableEq, Repr

/-- `charts_data['test_distribution']`. -/
structure TestDistribution where
  labels : List String
  values : List ℕ
  colors : List String
deriving DecidableEq, Repr

/-- `charts_data['category_scores']`. -/
structure CategoryScoresChart where
  labels : List String
  values : List ℚ
  benchmarks : List ℚ
deriving DecidableEq, Repr

/-- `charts_data['agent_comparison']`. -/
structure AgentComparisonChart where
  labels : List String
  values : List ℚ
deriving DecidableEq, Repr

/-- `report['charts_data']`. -/
structure ChartsData where
  test_distribution : TestDistribution
  category_scores : CategoryScoresChart
  agent_comparison : AgentComparisonChart
deriving DecidableEq, Repr

/-- The report returned by `TestGenerator.generate_test_report`. -/
structure Report where
  summary : ReportSummary
  category_performance : List CategoryPerf
  agent_performance : List AgentPerf
  recommendations : List RecWithTest
  critical_issues : List Recommendation
  charts_data : ChartsData
deriving DecidableEq, Repr

/-- `agent_tests`: results whose `test_id` starts with the agent id or whose
`highlight_elements` contain it. -/
def agentTests (results : List TestResult) (aid : String) : List TestResult :=
  results.filter (fun r =>
    r.test_id.startsWith aid || r.highlight_elements.any (fun h => h == aid))

/-- The `agent_performance` loop: one entry per declared agent with a
non-empty `agent_tests` selection, in declaration order.  (The source keys
the dict by `agent_id`; agents are assumed unique by id, as the data-model
invariant states.) -/
def agentPerformance (results : List TestResult) (ad : AgentData) : List AgentPerf :=
  (ad.agents.map (fun agent =>
    let ts := agentTests results agent.id
    if ts.isEmpty then []
    else
      let agent_metrics := (ts.map (fun r => r.metrics)).flatten
      let avg_score : ℚ :=
        if agent_metrics.isEmpty then 0
        else ((agent_metrics.map (fun m => m.value)).sum : ℚ) / (agent_metrics.length : ℚ)
      [{ name := agent.name
         tests_run := ts.length
         passed := (ts.filter (fun r => r.status == "passed")).length
         failed := (ts.filter (fun r => r.status == "failed")).length
         average_score := pyRound2 avg_score
         metrics := agent_metrics }])).flatten

/-- `TestGenerator.generate_test_report`. -/
def generate_test_report (results : List TestResult) (ad : AgentData) : Report :=
  let total_tests := results.length
  let passed := (results.filter (fun r => r.status == "passed")).length
  let failed := (results.filter (fun r => r.status == "failed")).length
  let warnings := (results.filter (fun r => r.status == "warning")).length
  let errors := (results.filter (fun r => r.status == "error")).length
  let category_averages : List (String × ℚ) :=
    (metricNames results).map (fun n => (n, pyAvg (categoryScores results n)))
  let agent_perf := agentPerformance results ad
  let all_recommendations : List RecWithTest :=
    (results.map (fun r => r.recommendations.map (fun rc =>
      ({ recommendation := rc
         test_id := r.test_id
         test_name := r.test_name.getD "Unknown Test" } : RecWithTest)))).flatten
  let critical_issues : List Recommendation :=
    ((results.map (fun r => r.recommendations)).flatten).filter
      (fun rc => rc.severity == "critical")
  { summary := {
      total_tests := total_tests
      passed := passed
      failed := failed
      warnings := warnings
      errors := errors
      success_rate :=
        pyRound2 (if 0 < total_tests then (passed : ℚ) / (total_tests : ℚ) * 100 else 0) }
    category_performance := category_averages.map (fun p =>
      { category := p.1
        average_score := pyRound2 p.2
        benchmark := 85
        passed := decide ((85 : ℚ) ≤ p.2) })
    agent_performance := agent_perf
    recommendations := all_recommendations
    critical_issues := critical_issues
    charts_data := {
      test_distribution := {
        labels := ["Passed", "Failed", "Warning", "Error"]
        values := [passed, failed, warnings, errors]
        colors := ["#10b981", "#ef4444", "#f59e0b", "#6b7280"] }
      category_scores := {
        labels := category_averages.map (fun p => p.1)
        values := category_averages.map (fun p => pyRound2 p.2)
        benchmarks := category_averages.map (fun _ => (85 : ℚ)) }
      agent_comparison := {
        labels := agent_perf.map (fun p => p.name)
        values := agent_perf.map (fun p => p.average_score) } } }

/-- Restatement of the expected `calls` list of a graph node, following the
spec's words: one entry `{agent_id: target, relationship}` per relationship
leaving `k`, in relationship order, without deduplication. -/
def callsSpec (rels : List Relationship) (k : String) : List GraphEntry :=
  (rels.filter (fun r => r.from_agent_id == k)).map (fun r => ⟨r.to_agent_id, r⟩)

/-- Restatement of the expected `called_by` list of a graph node, following
the spec's words. -/
def calledBySpec (rels : List Relationship) (k : String) : List GraphEntry :=
  (rels.filter (fun r => r.to_agent_id == k)).map (fun r => ⟨r.from_agent_id, r⟩)

/-- `k` occurs as an endpoint of some relationship. -/
def isEndpoint (rels : List Relationship) (k : String) : Bool :=
  rels.any (fun r => r.from_agent_id == k || r.to_agent_id == k)


theorem graphFind_cons (p : String × GraphNode) (g : List (String × GraphNode))
    (k : String) :
    graphFind (p :: g) k = if p.1 = k then some p.2 else graphFind g k := by
  by_cases hp : p.1 = k <;> simp [graphFind, List.find?_cons, hp]

theorem modifyNode_cons (p : String × GraphNode) (g : List (String × GraphNode))
    (k : String) (f : GraphNode → GraphNode) :
    modifyNode (p :: g) k f
      = (if p.1 = k then (p.1, f p.2) else p) :: modifyNode g k f := by
  by_cases hp : p.1 = k <;> simp [modifyNode, hp]

theorem graphFind_modifyNode (g : List (String × GraphNode)) (k k' : String)
    (f : GraphNode → GraphNode) :
    graphFind (modifyNode g k f) k' =
      if k' = k then (graphFind g k).map f else graphFind g k' := by
  induction g with
  | nil => simp [graphFind, modifyNode]
  | cons p g ih =>
    rw [modifyNode_cons]
    by_cases hp : p.1 = k <;> by_cases hp' : p.1 = k'
    · have hkk : k' = k := by rw [← hp']; exact hp
      subst hkk
      simp [graphFind_cons, hp, hp']
    · have hkk : ¬ k' = k := fun h => hp' (by rw [h]; exact hp)
      have hkk2 : ¬ k = k' := fun h => hkk h.symm
      simp [graphFind_cons, hp, hp', hkk, hkk2, ih]
    · have hkk : ¬ k' = k := fun h => hp (by rw [← h]; exact hp')
      simp [graphFind_cons, hp, hp', hkk, ih]
    · simp [graphFind_cons, hp, hp', ih]

theorem graphFind_append (g₁ g₂ : List (String × GraphNode)) (k : String) :
    graphFind (g₁ ++ g₂) k =
      match graphFind g₁ k with
      | some n => some n
      | none => graphFind g₂ k := by
  induction g₁ with
  | nil => simp [graphFind]
  | cons p g ih =>
    rw [List.cons_append, graphFind_cons, graphFind_cons]
    by_cases hp : p.1 = k <;> simp [hp, ih]

theorem graphFind_insertIfAbsent (g : List (String × GraphNode)) (k k' : String) :
    graphFind (insertIfAbsent g k) k' =
      if k' = k then some ((graphFind g k).getD emptyNode) else graphFind g k' := by
  unfold insertIfAbsent
  cases hk : graphFind g k with
  | some n =>
    simp only [hk, Option.isSome_some, if_true]
    by_cases hkk : k' = k
    · subst hkk; simp [hk]
    · simp [hkk]
  | none =>
    simp only [hk, Option.isSome_none, Bool.false_eq_true, if_false]
    rw [graphFind_append]
    by_cases hkk : k' = k
    · subst hkk
      rw [hk]
      simp [graphFind_cons, graphFind]
    · have hkk2 : ¬ k = k' := fun h => hkk h.symm
      cases hg : graphFind g k' with
      | some m => simp [hg, hkk]
      | none => simp [hg, hkk, graphFind_cons, graphFind, hkk2]

theorem graphFind_buildStep (g : List (String × GraphNode)) (r : Relationship)
    (k : String) :
    graphFind (buildStep g r) k =
      if r.from_agent_id = k ∨ r.to_agent_id = k then
        some { calls := ((graphFind g k).getD emptyNode).calls
                 ++ (if r.from_agent_id = k then [⟨r.to_agent_id, r⟩] else []),
               called_by := ((graphFind g k).getD emptyNode).called_by
                 ++ (if r.to_agent_id = k then [⟨r.from_agent_id, r⟩] else []) }
      else graphFind g k := by
  unfold buildStep
  simp only [graphFind_modifyNode, graphFind_insertIfAbsent]
  by_cases hf : r.from_agent_id = k <;> by_cases ht : r.to_agent_id = k
  · subst hf
    cases hn : graphFind g r.from_agent_id <;> simp [ht, hn]
  · subst hf
    have ht3 : ¬ r.from_agent_id = r.to_agent_id := fun h => ht h.symm
    cases hn : graphFind g r.from_agent_id <;> simp [ht, ht3, hn]
  · subst ht
    have hf3 : ¬ r.to_agent_id = r.from_agent_id := fun h => hf h.symm
    cases hn : graphFind g r.to_agent_id <;> simp [hf, hf3, hn]
  · have hkf : ¬ k = r.from_agent_id := fun h => hf h.symm
    have hkt : ¬ k = r.to_agent_id := fun h => ht h.symm
    simp [hf, ht, hkf, hkt]

theorem callsSpec_cons (r : Relationship) (rs : List Relationship) (k : String) :
    callsSpec (r :: rs) k =
      (if r.from_agent_id = k then [⟨r.to_agent_id, r⟩] else []) ++ callsSpec rs k := by
  by_cases hf : r.from_agent_id = k <;> simp [callsSpec, List.filter_cons, hf]

theorem calledBySpec_cons (r : Relationship) (rs : List Relationship) (k : String) :
    calledBySpec (r :: rs) k =
      (if r.to_agent_id = k then [⟨r.from_agent_id, r⟩] else []) ++ calledBySpec rs k := by
  by_cases ht : r.to_agent_id = k <;> simp [calledBySpec, List.filter_cons, ht]

theorem isEndpoint_cons (r : Relationship) (rs : List Relationship) (k : String) :
    isEndpoint (r :: rs) k
      = ((r.from_agent_id == k || r.to_agent_id == k) || isEndpoint rs k) := by
  simp [isEndpoint]

theorem graphFind_foldl_buildStep (rels : List Relationship) :
    ∀ (g : List (String × GraphNode)) (k : String),
    graphFind (rels.foldl buildStep g) k =
      match graphFind g k with
      | some n => some { calls := n.calls ++ callsSpec rels k,
                         called_by := n.called_by ++ calledBySpec rels k }
      | none =>
        if isEndpoint rels k
        then some { calls := callsSpec rels k, called_by := calledBySpec rels k }
        else none := by
  induction rels with
  | nil =>
    intro g k
    cases hg : graphFind g k <;> simp [hg, callsSpec, calledBySpec, isEndpoint]
  | cons r rs ih =>
    intro g k
    rw [List.foldl_cons, ih, graphFind_buildStep, callsSpec_cons, calledBySpec_cons,
      isEndpoint_cons]
    by_cases hf : r.from_agent_id = k <;> by_cases ht : r.to_agent_id = k <;>
      cases hg : graphFind g k <;>
        simp [hf, ht, hg, emptyNode]

/-- The simulation payload of a `SimResult`, when the agent was found. -/
def simOkOf : SimResult → Option Simulation
  | .ok sim => some sim
  | .err _ _ => none

/-- The `tool_accuracy` metric of a simulation result (0 on the error shape,
which carries no metrics). -/
def simToolAccuracy (r : SimResult) : ℚ :=
  ((simOkOf r).map (fun s => s.metrics.tool_accuracy)).getD 0

/-- The payload of a `ReasonResult`, when the agent was found. -/
def reasonOkOf : ReasonResult → Option ReasonOk
  | .ok r => some r
  | .err _ _ => none

/-- Restatement of the reasoning rubric, following the spec's words:
+30 for an objective longer than 10 characters, +40 for a prompt longer
than 50, +30 for a system instruction longer than 20. -/
def specReasoningScore (agent : Agent) : ℕ :=
  (if 10 < agent.objective.length then 30 else 0)
  + (if 50 < agent.prompt.length then 40 else 0)
  + (if 20 < agent.system_instruction.length then 30 else 0)

/-- A concrete agent used to instantiate proved theorems. -/
def exAgent : Agent :=
  { id := "a1"
    name := "Agent One"
    tools := ["search"]
    objective := "Answer user questions accurately"
    prompt := "You are a helpful assistant that searches the web and summarizes results for the user."
    system_instruction := "Always cite the sources you used."
    model_config := { temperature := some (1 / 2), max_tokens := some 500 } }

/-- A concrete agent system: one agent declaring the tool name "search",
and two catalog tools whose ids both contain "search". -/
def exAgentData : AgentData :=
  { agents := [exAgent]
    tools := [{ id := "search_web", name := "Search Web", description := "", parameters := [] },
              { id := "search_db", name := "Search DB", description := "", parameters := [] }]
    relationships := [] }

/-- An agent whose model configuration is invalid
(`temperature = 3 > 2`, `max_tokens = 0`). -/
def exAgentBad : Agent :=
  { id := "b1"
    name := "Agent Bad"
    tools := []
    objective := ""
    prompt := ""
    system_instruction := ""
    model_config := { temperature := some 3, max_tokens := some 0 } }

/-- A concrete agent system containing only the invalid-config agent. -/
def exAgentDataBad : AgentData :=
  { agents := [exAgentBad], tools := [], relationships := [] }

/-- C8: for every relationship list, the built execution graph has a node
exactly for each id occurring as an endpoint; that node's `calls` list holds
one `{agent_id: target, relationship}` entry per outgoing relationship and
its `called_by` list one symmetric entry per incoming relationship, in list
order and without deduplication (parallel relationships each contribute
their own entry, since `callsSpec`/`calledBySpec` filter without removing
duplicates). -/
theorem build_execution_graph_characterization (rels : List Relationship) (k : String) :
    graphFind (build_execution_graph rels) k =
      if isEndpoint rels k
      then some { calls := callsSpec rels k, called_by := calledBySpec rels k }
      else none := by
  unfold build_execution_graph
  rw [graphFind_foldl_buildStep]
  simp [graphFind]

/-- C2: `run_stress_test` with `num_iterations = 0` reaches the division
`successes / num_iterations` with a zero divisor: the modelled execution is
the raising one (`none`), for every agent system and agent id.  The claim
that it "does not divide by zero and defines success_rate as 0" fails on
the code. -/
theorem run_stress_test_zero_iterations (ad : AgentData) (aid : String)
    (t : ℕ → ℚ) :
    run_stress_test ad aid 0 t = none := by
  simp [run_stress_test]

/-- C6: the `except Exception` handler of `run_test` converts any exception
escaping the category dispatch into a result with `status = 'error'` and
empty `metrics` and `recommendations`; `run_test` itself is total, so no
exception propagates to its caller. -/
theorem run_test_error_boundary (tc : TestCase) (e : String) :
    (run_test tc (Except.error e)).status = "error"
    ∧ (run_test tc (Except.error e)).metrics = []
    ∧ (run_test tc (Except.error e)).recommendations = []
    ∧ run_test tc (Except.error e) = errorResult tc e :=
  ⟨rfl, rfl, rfl, rfl⟩

/-- C7: for every agent present in the agent set, the reasoning evaluator
returns the rubric score (+30 for objective length > 10, +40 for prompt
length > 50, +30 for system instruction length > 20), the score is one of
{0, 30, 40, 60, 70, 100}, and `passed` holds iff the score is at least 70. -/
theorem test_reasoning_rubric (ad : AgentData) (aid scenario : String)
    (agent : Agent) (h : lookupAgent ad aid = some agent) :
    (reasonOkOf (test_reasoning ad aid scenario)).map (fun r => r.reasoning_score)
        = some (specReasoningScore agent)
    ∧ specReasoningScore agent ∈ ([0, 30, 40, 60, 70, 100] : List ℕ)
    ∧ (reasonOkOf (test_reasoning ad aid scenario)).map (fun r => r.passed)
        = some (decide (70 ≤ specReasoningScore agent)) := by
  by_cases h1 : 10 < agent.objective.length <;>
    by_cases h2 : 50 < agent.prompt.length <;>
      by_cases h3 : 20 < agent.system_instruction.length <;>
        simp [test_reasoning, h, reasonOkOf, specReasoningScore, h1, h2, h3]

theorem test_reasoning_rubric_witness :
    (reasonOkOf (test_reasoning exAgentData "a1" "Plan a trip")).map
        (fun r => r.reasoning_score) = some (specReasoningScore exAgent) :=
  (test_reasoning_rubric exAgentData "a1" "Plan a trip" exAgent rfl).1

/-- C5: on the generic-fallback dispatch path, every produced metric's value
is `85 + (hash(name) mod 15)`, lies in `[85, 99]`, and depends only on the
hash function and the metric name: two pipeline runs over (possibly
different) test cases produce identical values for equally named metrics.
`h` is the interpreter's string hash, fixed for the lifetime of a process. -/
theorem fallback_metric_deterministic (h : String → ℤ) (tc tc' : TestCase)
    (m m' : ResultMetric) (hm : m ∈ genericFallbackMetrics h tc)
    (hm' : m' ∈ genericFallbackMetrics h tc') :
    m.value = 85 + ((h m.name % 15 : ℤ) : ℚ)
    ∧ (85 : ℚ) ≤ m.value ∧ m.value ≤ 99
    ∧ (m.name = m'.name → m.value = m'.value) := by
  obtain ⟨ms, hms, rfl⟩ := List.mem_map.mp hm
  obtain ⟨ms', hms', rfl⟩ := List.mem_map.mp hm'
  have h0 : (0 : ℤ) ≤ h ms.name % 15 := Int.emod_nonneg _ (by norm_num)
  have h14 : h ms.name % 15 ≤ 14 := by omega
  have h0q : (0 : ℚ) ≤ ((h ms.name % 15 : ℤ) : ℚ) := by exact_mod_cast h0
  have h14q : ((h ms.name % 15 : ℤ) : ℚ) ≤ 14 := by exact_mod_cast h14
  refine ⟨rfl, ?_, ?_, ?_⟩
  · show (85 : ℚ) ≤ 85 + ((h ms.name % 15 : ℤ) : ℚ)
    linarith
  · show 85 + ((h ms.name % 15 : ℤ) : ℚ) ≤ 99
    linarith
  · intro hn
    have hn' : ms.name = ms'.name := hn
    show (85 : ℚ) + ((h ms.name % 15 : ℤ) : ℚ)
        = 85 + ((h ms'.name % 15 : ℤ) : ℚ)
    rw [hn']

/-- The interpreter string hash used to instantiate proved theorems. -/
def exHash : String → ℤ := fun s => (s.length : ℤ)

def exMetricSpec : MetricSpec :=
  { name := "quality", unit := none, benchmark := none, description := none }

def exTestCase : TestCase := { id := "t1", metrics := [exMetricSpec] }

theorem fallback_metric_deterministic_witness :
    (85 : ℚ) ≤ (fallbackMetric exHash exMetricSpec).value :=
  (fallback_metric_deterministic exHash exTestCase exTestCase
    (fallbackMetric exHash exMetricSpec) (fallbackMetric exHash exMetricSpec)
    (by simp [genericFallbackMetrics, exTestCase])
    (by simp [genericFallbackMetrics, exTestCase])).2.1

/-- C1 (amended): for every agent present in the agent set, `tool_accuracy`
equals `resolved / max(declared, 1) * 100`, is nonnegative, is `0` whenever
the declared tool list is empty, and is bounded by `100 ·` (number of
catalog tools); it is NOT always at most 100, because several catalog tools
can resolve against a single declared name. -/
theorem simulate_tool_accuracy (ad : AgentData) (aid input : String) (t : ℚ)
    (agent : Agent) (h : lookupAgent ad aid = some agent) :
    (simOkOf (simulate_agent_execution ad aid input t)).map
        (fun s => s.metrics.tool_accuracy)
      = some (((availableTools ad agent.tools).length : ℚ)
          / (max agent.tools.length 1 : ℚ) * 100)
    ∧ (0 : ℚ) ≤ simToolAccuracy (simulate_agent_execution ad aid input t)
    ∧ (agent.tools = [] →
        simToolAccuracy (simulate_agent_execution ad aid input t) = 0)
    ∧ simToolAccuracy (simulate_agent_execution ad aid input t)
        ≤ ((toolKeys ad).length : ℚ) * 100 := by
  have havail : (availableTools ad agent.tools).length ≤ (toolKeys ad).length :=
    List.length_filter_le _ _
  refine ⟨?_, ?_, ?_, ?_⟩
  · simp [simulate_agent_execution, h, simOkOf]
  · simp only [simulate_agent_execution, h, simToolAccuracy, simOkOf,
      Option.map_some', Option.getD_some]
    positivity
  · intro he
    simp [simulate_agent_execution, h, simToolAccuracy, simOkOf, availableTools, he]
  · simp only [simulate_agent_execution, h, simToolAccuracy, simOkOf,
      Option.map_some', Option.getD_some]
    have ha : (0 : ℚ) ≤ ((availableTools ad agent.tools).length : ℚ) := by positivity
    have hd : (1 : ℚ) ≤ max ((agent.tools.length : ℚ)) 1 := le_max_right _ _
    have h1 : ((availableTools ad agent.tools).length : ℚ) ≤ ((toolKeys ad).length : ℚ) := by
      exact_mod_cast havail
    calc ((availableTools ad agent.tools).length : ℚ)
          / (max ((agent.tools.length : ℚ)) 1) * 100
        ≤ ((availableTools ad agent.tools).length : ℚ) * 100 :=
          mul_le_mul_of_nonneg_right (div_le_self ha hd) (by norm_num)
      _ ≤ ((toolKeys ad).length : ℚ) * 100 :=
          mul_le_mul_of_nonneg_right h1 (by norm_num)

/-- C1 counterexample: with one declared tool name "search" and a catalog
of two tools whose ids both contain it, `tool_accuracy` is `200`, so the
claimed invariant `tool_accuracy ∈ [0, 100]` is false. -/
theorem simulate_tool_accuracy_counterexample :
    simToolAccuracy (simulate_agent_execution exAgentData "a1" "query" 0) = 200
    ∧ ¬ simToolAccuracy (simulate_agent_execution exAgentData "a1" "query" 0) ≤ 100 := by
  have h : lookupAgent exAgentData "a1" = some exAgent := rfl
  have havail : availableTools exAgentData exAgent.tools = ["search_web", "search_db"] := rfl
  have hlen : exAgent.tools.length = 1 := rfl
  constructor
  · simp [simToolAccuracy, simOkOf, simulate_agent_execution, h, havail, hlen]
    norm_num
  · simp [simToolAccuracy, simOkOf, simulate_agent_execution, h, havail, hlen]

theorem simulate_tool_accuracy_witness :
    (0 : ℚ) ≤ simToolAccuracy (simulate_agent_execution exAgentData "a1" "query" 0) :=
  (simulate_tool_accuracy exAgentData "a1" "query" 0 exAgent rfl).2.1

theorem filter_config_validation_map_const (l : List String) :
    (l.map (fun _ => (⟨"tool_execution", "passed"⟩ : SimStep))).filter
      (fun st => st.step == "config_validation") = [] := by
  induction l with
  | nil => rfl
  | cons a l ih => simp [List.filter_cons]

/-- C10: for every agent present in the agent set, the simulation is
returned in the success shape with `success = true` (never the error
shape), and an invalid model configuration (temperature outside [0,2] or
max_tokens ≤ 0) surfaces only as a 'failed' `config_validation` step and a
`config_validity` metric of 50 instead of 100 — never through the top-level
success flag. -/
theorem simulate_invalid_config_only_degrades (ad : AgentData)
    (aid input : String) (t : ℚ) (agent : Agent)
    (h : lookupAgent ad aid = some agent) :
    (simOkOf (simulate_agent_execution ad aid input t)).isSome = true
    ∧ (simOkOf (simulate_agent_execution ad aid input t)).map (fun s => s.success)
        = some true
    ∧ (simOkOf (simulate_agent_execution ad aid input t)).map
        (fun s => (s.steps.filter (fun st => st.step == "config_validation")).map
          (fun st => st.status))
      = some [if configValid agent.model_config then "passed" else "failed"]
    ∧ (simOkOf (simulate_agent_execution ad aid input t)).map
        (fun s => s.metrics.config_validity)
      = some (if configValid agent.model_config then (100 : ℚ) else 50) := by
  refine ⟨?_, ?_, ?_, ?_⟩
  · simp [simulate_agent_execution, h, simOkOf]
  · simp [simulate_agent_execution, h, simOkOf]
  · cases hg : graphFind (build_execution_graph ad.relationships) aid with
    | none =>
      simp [simulate_agent_execution, h, simOkOf, hg, List.filter_append,
        List.filter_cons, filter_config_validation_map_const]
    | some n =>
      by_cases hc : n.calls.isEmpty <;>
        simp [simulate_agent_execution, h, simOkOf, hg, hc, List.filter_append,
          List.filter_cons, filter_config_validation_map_const]
  · simp [simulate_agent_execution, h, simOkOf]

theorem simulate_invalid_config_witness :
    (simOkOf (simulate_agent_execution exAgentDataBad "b1" "input" 0)).map
        (fun s => s.metrics.config_validity)
      = some (if configValid exAgentBad.model_config then (100 : ℚ) else 50) :=
  (simulate_invalid_config_only_degrades exAgentDataBad "b1" "input" 0 exAgentBad rfl).2.2.2

theorem filter_simSuccess_map_err (l : List ℕ) :
    (l.map (fun _ => SimResult.err "Agent not found" false)).filter simSuccess = [] := by
  induction l with
  | nil => rfl
  | cons a l ih => simp [List.filter_cons, simSuccess, ih]

/-- C3 (amended): for every agent id absent from the agent set,
`simulate_agent_execution`, `test_tool_calling` and `test_reasoning` return
the structured not-found value `{error: 'Agent not found', success/passed:
false}` without raising; `run_stress_test`, however, performs no agent
check: with positive iterations it returns its ordinary result shape with
`success_rate = 0`, empty `response_times` and no error marker, and with
zero iterations it raises `ZeroDivisionError` (modelled as `none`). -/
theorem not_found_results (ad : AgentData)
    (aid input scenario tool_name : String) (n : ℕ) (t : ℕ → ℚ) (tq : ℚ)
    (h : lookupAgent ad aid = none) :
    simulate_agent_execution ad aid input tq = .err "Agent not found" false
    ∧ test_tool_calling ad aid tool_name = .err "Agent not found" false
    ∧ test_reasoning ad aid scenario = .err "Agent not found" false
    ∧ (0 < n → run_stress_test ad aid n t =
        some { agent_id := aid, iterations := n, response_times := [],
               success_rate := 0, average_time := 0, error := none })
    ∧ run_stress_test ad aid 0 t = none := by
  have hsim : ∀ (s : String) (q : ℚ),
      simulate_agent_execution ad aid s q = .err "Agent not found" false := by
    intro s q
    simp [simulate_agent_execution, h]
  refine ⟨hsim _ _, ?_, ?_, ?_, ?_⟩
  · simp [test_tool_calling, h]
  · simp [test_reasoning, h]
  · intro hn
    have hn0 : ¬ n = 0 := Nat.pos_iff_ne_zero.mp hn
    unfold run_stress_test
    have hmap : ((List.range n).map (fun i =>
        let j := i + 1
        simulate_agent_execution ad aid s!"Stress test input #{j}" (t i)))
        = (List.range n).map (fun _ => SimResult.err "Agent not found" false) := by
      apply List.map_congr_left
      intro i _
      exact hsim _ _
    rw [hmap]
    simp [filter_simSuccess_map_err, hn0, simSuccess, List.filter_replicate]
  · simp [run_stress_test]

theorem not_found_results_witness :
    test_reasoning exAgentData "ghost" "scenario" = .err "Agent not found" false :=
  (not_found_results exAgentData "ghost" "input" "scenario" "toolX" 3
    (fun _ => 0) 0 rfl).2.2.1

/-- C3 counterexample: for the unknown agent id "ghost" and 3 iterations,
`run_stress_test` returns the ordinary result shape — no `error` key is
present (`error = none`) and `success_rate` is 0 — rather than a
structured not-found error value, so the claim that all four entry points
return a not-found result is false on the code. -/
theorem not_found_stress_counterexample :
    (run_stress_test exAgentData "ghost" 3 (fun _ => 0)).map (fun r => r.error)
        = some none
    ∧ (run_stress_test exAgentData "ghost" 3 (fun _ => 0)).map
        (fun r => r.success_rate) = some 0 := by
  have h : lookupAgent exAgentData "ghost" = none := rfl
  constructor <;>
    simp [run_stress_test, simulate_agent_execution, h, simSuccess,
      List.range_succ, List.filter_cons]

theorem mem_dedupKeys (x : String) (l : List String) : ∀ (seen : List String),
    x ∈ dedupKeys seen l ↔ x ∈ l ∧ x ∉ seen := by
  induction l with
  | nil => intro seen; simp [dedupKeys]
  | cons k ks ih =>
    intro seen
    by_cases hk : seen.contains k
    · have hk' : k ∈ seen := by simpa using hk
      simp only [dedupKeys, hk, if_true, ih, List.mem_cons]
      by_cases hxk : x = k
      · subst hxk; simp [hk']
      · simp [hxk]
    · have hk' : k ∉ seen := by simpa using hk
      simp only [dedupKeys, hk, if_false, List.mem_cons, ih, Bool.false_eq_true]
      by_cases hxk : x = k
      · subst hxk; simp [hk']
      · simp [hxk]

theorem nodup_dedupKeys (l : List String) : ∀ (seen : List String),
    (dedupKeys seen l).Nodup := by
  induction l with
  | nil => intro seen; simp [dedupKeys]
  | cons k ks ih =>
    intro seen
    by_cases hk : seen.contains k
    · simpa only [dedupKeys, hk, if_true] using ih seen
    · simp only [dedupKeys, hk, if_false, Bool.false_eq_true]
      refine List.nodup_cons.mpr ⟨?_, ih _⟩
      intro hmem
      exact ((mem_dedupKeys k ks (k :: seen)).mp hmem).2 (List.mem_cons_self _ _)

/-- C9: report aggregation over the empty result list yields zero counts, a
zero success rate, and empty category, agent, recommendation and chart
series (the fixed four-bucket status distribution holds zero counts). -/
theorem generate_test_report_empty (ad : AgentData) :
    (generate_test_report [] ad).summary.total_tests = 0
    ∧ (generate_test_report [] ad).summary.success_rate = 0
    ∧ (generate_test_report [] ad).category_performance = []
    ∧ (generate_test_report [] ad).agent_performance = []
    ∧ (generate_test_report [] ad).recommendations = []
    ∧ (generate_test_report [] ad).critical_issues = []
    ∧ (generate_test_report [] ad).charts_data.category_scores.labels = []
    ∧ (generate_test_report [] ad).charts_data.category_scores.values = []
    ∧ (generate_test_report [] ad).charts_data.agent_comparison.labels = []
    ∧ (generate_test_report [] ad).charts_data.agent_comparison.values = []
    ∧ (generate_test_report [] ad).charts_data.test_distribution.values = [0, 0, 0, 0] := by
  have hap : agentPerformance [] ad = [] := by
    simp [agentPerformance, agentTests]
  refine ⟨rfl, ?_, ?_, ?_, ?_, ?_, ?_, ?_, ?_, ?_, ?_⟩ <;>
    simp [generate_test_report, metricNames, allMetrics, dedupKeys, hap, pyRound2]

/-- C4: `category_performance` groups all metrics across all results by
metric name (not by test category), averages the `value` field per group,
fixes `benchmark` to the constant 85, and sets `passed` iff the (unrounded)
group average is at least 85, regardless of each metric's own declared
benchmark; there is exactly one entry per metric name occurring in the
results. -/
theorem report_category_performance (results : List TestResult) (ad : AgentData)
    (_hne : results ≠ []) :
    ((generate_test_report results ad).category_performance.map
        (fun cp => cp.category)).Nodup
    ∧ (∀ cp ∈ (generate_test_report results ad).category_performance,
        cp.benchmark = 85
        ∧ cp.average_score = pyRound2 (pyAvg (categoryScores results cp.category))
        ∧ (cp.passed = true ↔ 85 ≤ pyAvg (categoryScores results cp.category)))
    ∧ (∀ nm : String,
        (∃ cp ∈ (generate_test_report results ad).category_performance,
          cp.category = nm)
        ↔ ∃ m ∈ allMetrics results, m.name = nm) := by
  have hform : (generate_test_report results ad).category_performance
      = (metricNames results).map (fun nm =>
          { category := nm
            average_score := pyRound2 (pyAvg (categoryScores results nm))
            benchmark := 85
            passed := decide ((85 : ℚ) ≤ pyAvg (categoryScores results nm)) }) := by
    simp [generate_test_report, List.map_map, Function.comp]
  have hiff : ∀ nm : String,
      nm ∈ metricNames results ↔ ∃ m ∈ allMetrics results, m.name = nm := by
    intro nm
    unfold metricNames
    rw [mem_dedupKeys]
    simp [List.mem_map]
  refine ⟨?_, ?_, ?_⟩
  · rw [hform, List.map_map]
    dsimp only [Function.comp_def]
    simpa using nodup_dedupKeys _ []
  · intro cp hcp
    rw [hform] at hcp
    obtain ⟨nm, hnm, rfl⟩ := List.mem_map.mp hcp
    exact ⟨rfl, rfl, by simp⟩
  · intro nm
    rw [hform]
    constructor
    · rintro ⟨cp, hcp, rfl⟩
      obtain ⟨nm', hnm', rfl⟩ := List.mem_map.mp hcp
      exact (hiff _).mp hnm'
    · intro hm
      exact ⟨_, List.mem_map_of_mem _ ((hiff nm).mpr hm), rfl⟩

def exResultMetric : ResultMetric :=
  { name := "accuracy", value := 90, unit := "%", benchmark := 95,
    passed := false, description := "" }

def exTestResult : TestResult :=
  { test_id := "a1_test", status := "passed", execution_time := 1,
    summary := "ok", metrics := [exResultMetric], recommendations := [],
    test_name := none, highlight_elements := [] }

def exResults : List TestResult := [exTestResult]

theorem report_category_performance_witness :
    ((generate_test_report exResults exAgentData).category_performance.map
      (fun cp => cp.category)).Nodup :=
  (report_category_performance exResults exAgentData (by simp [exResults])).1
